import Mathlib

/-!
Shallow embedding of the concurrency core of `src/gui/main.py`
(Codex Mission Control GUI backend).

The Python module keeps process-wide mutable state:
  * `agent_state` — a dict with keys `status`, `current_role`,
    `current_feature`, `started_at`, `logs`, `audit_log`;
  * `log_buffer` — an in-memory list of log lines for SSE streaming;
  * JSON documents under the harness directory, accessed through
    `load_json_file` / `save_json_file` (task queue, feature catalog).

We model the state explicitly and the request handlers as pure state
transformers returning either a success payload or the `HTTPException`
the handler raises.  JSON dict keys that may be absent become `Option`
fields (`none` = key absent).  Timestamps are opaque strings supplied
as a `now` argument (Python calls `datetime.now(...).isoformat()`).
-/

namespace JobScanner

/-- One entry of `agent_state["audit_log"]`, built by `add_audit_log`:
`{"timestamp": ..., "action": ..., "details": {...}}`.  Detail values in
the source are strings or `None`, so we use `Option String` values. -/
structure AuditEntry where
  timestamp : String
  action : String
  details : List (String × Option String)
deriving DecidableEq, Repr

/-- The `agent_state` global dict of `main.py`. -/
structure AgentState where
  status : String
  current_role : Option String
  current_feature : Option String
  started_at : Option String
  logs : List String
  audit_log : List AuditEntry
deriving DecidableEq, Repr

/-- `agent_state` as initialised at module load:
status `idle`, all optional fields `None`, empty lists. -/
def initialAgentState : AgentState :=
  { status := "idle", current_role := none, current_feature := none,
    started_at := none, logs := [], audit_log := [] }

/-- The list-level core of `add_audit_log`: append the entry, then
`if len(...) > 100: keep only the last 100` (Python slice `[-100:]`,
i.e. drop all but the last 100). -/
def auditAppend (log : List AuditEntry) (e : AuditEntry) : List AuditEntry :=
  let l := log ++ [e]
  if l.length > 100 then l.drop (l.length - 100) else l

/-- `add_audit_log(action, details)`: builds the timestamped entry and
appends it to `agent_state["audit_log"]` with FIFO trimming to 100. -/
def addAuditLog (s : AgentState) (action : String)
    (details : List (String × Option String)) (now : String) : AgentState :=
  { s with audit_log := auditAppend s.audit_log ⟨now, action, details⟩ }

/-- `fastapi.HTTPException(status_code=..., detail=...)` as raised by the
handlers (and, for uncaught I/O errors, FastAPI's default 500 response). -/
structure HTTPException where
  status_code : Nat
  detail : String
deriving DecidableEq, Repr

/-- Pydantic request model `AgentControl`. -/
structure AgentControl where
  action : String
  role : Option String
  feature_id : Option String
deriving DecidableEq, Repr

/-- The `control_agent` handler (`POST /api/agent/control`).  It mutates
only `agent_state`; we return the new state together with either the
response payload `{"status": agent_state["status"]}` (modelled by the
status string) or the raised `HTTPException`.  An exception is raised
before any assignment, so on the error paths the state comes back
unchanged, exactly as in the source. -/
def controlAgent (s : AgentState) (c : AgentControl) (now : String) :
    AgentState × Except HTTPException String :=
  if c.action = "start" then
    let s1 := { s with status := "running", current_role := c.role,
                       current_feature := c.feature_id, started_at := some now }
    let s2 := addAuditLog s1 "agent_started"
      [("role", c.role), ("feature_id", c.feature_id)] now
    (s2, .ok s2.status)
  else if c.action = "pause" then
    if s.status ≠ "running" then
      (s, .error ⟨400, "Agent not running"⟩)
    else
      let s2 := addAuditLog { s with status := "paused" } "agent_paused" [] now
      (s2, .ok s2.status)
  else if c.action = "resume" then
    if s.status ≠ "paused" then
      (s, .error ⟨400, "Agent not paused"⟩)
    else
      let s2 := addAuditLog { s with status := "running" } "agent_resumed" [] now
      (s2, .ok s2.status)
  else if c.action = "stop" then
    let s1 := { s with status := "idle", current_role := none,
                       current_feature := none }
    let s2 := addAuditLog s1 "agent_stopped" [] now
    (s2, .ok s2.status)
  else
    (s, .error ⟨400, "Invalid action"⟩)

/-- A task dict as built by `create_task` and mutated by `update_task`.
The created dict has exactly the keys `feature_id`, `status`,
`created_at`, `priority`; `update_task` later adds `updated_at`, so that
key is an `Option` (`none` = key absent).  `priority` comes from the
request model where it is `Optional[str]`. -/
structure Task where
  feature_id : String
  status : String
  created_at : String
  updated_at : Option String
  priority : Option String
deriving DecidableEq, Repr

/-- The persisted `codex-task-queue.json` document: a JSON dict that may
or may not have the `"queue"` key (the handlers use `queue.get("queue", [])`
or initialise it). -/
structure TaskQueueDoc where
  queue : Option (List Task)
deriving DecidableEq, Repr

/-- One element of the feature catalog's `features` list.  The source
only ever reads `f.get("id")` (which may be absent, hence `Option`);
other keys of the feature dict are never consulted and are omitted. -/
structure Feature where
  id : Option String
deriving DecidableEq, Repr

/-- The persisted `codex-features.json` document; the `"features"` key
may be absent (`features.get("features", [])`). -/
structure FeatureCatalog where
  features : Option (List Feature)
deriving DecidableEq, Repr

/-- The two persisted documents the task handlers touch.  `none` means
the file does not exist on disk. -/
structure Store where
  taskQueue : Option TaskQueueDoc
  featureCatalog : Option FeatureCatalog
deriving DecidableEq, Repr

/-- `load_json_file("codex-task-queue.json")`: parse the file if it
exists, otherwise return the empty dict `{}` (a doc with no `queue` key). -/
def loadTaskQueue (st : Store) : TaskQueueDoc :=
  st.taskQueue.getD ⟨none⟩

/-- `load_json_file("codex-features.json")`: parse the file if it
exists, otherwise the empty dict `{}` (no `features` key). -/
def loadFeatureCatalog (st : Store) : FeatureCatalog :=
  st.featureCatalog.getD ⟨none⟩

/-- `feature_ids = [f.get("id") for f in features.get("features", [])]`. -/
def featureIds (cat : FeatureCatalog) : List (Option String) :=
  (cat.features.getD []).map Feature.id

/-- The process-wide state a task-queue handler can read or write:
the `agent_state` global (for the audit log) and the persisted files. -/
structure World where
  agent : AgentState
  store : Store
deriving DecidableEq, Repr

/-- Pydantic request model `TaskCreate` (`description` is accepted by
the model; whether the handler uses it is settled below). -/
structure TaskCreate where
  feature_id : String
  description : Option String
  priority : Option String
deriving DecidableEq, Repr

/-- Pydantic request model `TaskUpdate`. -/
structure TaskUpdate where
  status : String
deriving DecidableEq, Repr

/-- The `create_task` handler (`POST /api/tasks`): load queue and
catalog, 404 `"Feature not found"` if `task.feature_id` is not among the
catalog ids (raised before any write, so the world is unchanged),
otherwise build the new task dict, initialise `queue["queue"]` if the
key is absent, append, save the whole document, audit `task_created`,
and return `{"status": "created", "task": new_task}`. -/
def createTask (w : World) (req : TaskCreate) (now : String) :
    World × Except HTTPException (String × Task) :=
  let queue := loadTaskQueue w.store
  let features := loadFeatureCatalog w.store
  if ¬ (featureIds features).contains (some req.feature_id) then
    (w, .error ⟨404, "Feature not found"⟩)
  else
    let new_task : Task :=
      { feature_id := req.feature_id, status := "pending",
        created_at := now, updated_at := none, priority := req.priority }
    let q := queue.queue.getD []
    let doc : TaskQueueDoc := ⟨some (q ++ [new_task])⟩
    let st := { w.store with taskQueue := some doc }
    let ag := addAuditLog w.agent "task_created"
      [("feature_id", some req.feature_id)] now
    (⟨ag, st⟩, .ok ("created", new_task))

/-- The loop body of `update_task`: walk the queue list, and at the
first task whose `feature_id` matches, set its `status` and
`updated_at` and stop; return the rewritten list, the updated task and
its old status (used for the audit details), or `none` if no task
matches. -/
def updateFirst (fid new_status now : String) :
    List Task → Option (List Task × Task × String)
  | [] => none
  | t :: rest =>
    if t.feature_id = fid then
      let t2 := { t with status := new_status, updated_at := some now }
      some (t2 :: rest, t2, t.status)
    else
      match updateFirst fid new_status now rest with
      | some (l, u, old) => some (t :: l, u, old)
      | none => none

/-- The `update_task` handler (`PATCH /api/tasks/{feature_id}`): load
the document, find the first matching task; on a match mutate it in
place, save the whole document, audit `task_updated` and return
`{"status": "updated", "task": task}`; otherwise raise 404
`"Task not found"` having written nothing. -/
def updateTask (w : World) (fid : String) (upd : TaskUpdate) (now : String) :
    World × Except HTTPException (String × Task) :=
  let queue := loadTaskQueue w.store
  match updateFirst fid upd.status now (queue.queue.getD []) with
  | none => (w, .error ⟨404, "Task not found"⟩)
  | some (l, u, old) =>
    let st := { w.store with taskQueue := some ⟨some l⟩ }
    let ag := addAuditLog w.agent "task_updated"
      [("feature_id", some fid), ("old_status", some old),
       ("new_status", some upd.status)] now
    (⟨ag, st⟩, .ok ("updated", u))

/-! ### Log streaming (`GET /api/logs/stream`)

The SSE generator in `stream_logs` keeps a per-subscriber cursor
`last_idx`, initialised by the line `last_idx = 0`, and on each wakeup
emits `f"data: {log_buffer[i]}\n\n"` for every `i` in
`range(last_idx, len(log_buffer))`, then sets `last_idx` to the new
length.  We model a subscriber's lifetime as a sequence of atomic
events: a producer appending a line to the shared `log_buffer`, or the
subscriber's loop body running once (one wakeup of the `while True`
loop). -/

/-- The initial cursor of every subscriber session: `last_idx = 0`. -/
def streamInit : Nat := 0

/-- SSE framing of one buffered line: `f"data: {line}\n\n"`. -/
def frame (line : String) : String := "data: " ++ line ++ "\n\n"

/-- An atomic event in a subscriber's lifetime. -/
inductive StreamEvent where
  | publish (line : String)
  | poll
deriving DecidableEq, Repr

/-- Shared buffer plus one subscriber's cursor and the frames it has
emitted so far. -/
structure StreamState where
  buffer : List String
  cursor : Nat
  emitted : List String
deriving DecidableEq, Repr

/-- One event: `publish` appends to `log_buffer`; `poll` is one
iteration of the generator loop — if new lines exist past the cursor,
emit them in order and advance the cursor to the buffer length,
otherwise do nothing (the `await asyncio.sleep(0.1)` wait). -/
def streamStep (s : StreamState) : StreamEvent → StreamState
  | .publish l => { s with buffer := s.buffer ++ [l] }
  | .poll =>
    if s.buffer.length > s.cursor then
      { s with emitted := s.emitted ++ (s.buffer.drop s.cursor).map frame,
               cursor := s.buffer.length }
    else s

/-- Run a subscriber session through a sequence of events. -/
def streamRun (init : StreamState) (evs : List StreamEvent) : StreamState :=
  evs.foldl streamStep init

/-- A subscriber that connects when the shared buffer holds `buf`. -/
def streamConnect (buf : List String) : StreamState :=
  { buffer := buf, cursor := streamInit, emitted := [] }

/-! ### Error kinds (§7 of the spec)

Each raise site of the handlers, classified by kind, together with the
structured failure `(status_code, detail)` the caller observes.
`invalidTransition` covers the two lifecycle guards of `control_agent`
(`"Agent not running"`, `"Agent not paused"`); `unknownAction` the final
`else` of `control_agent`; `featureNotFound` the catalog check of
`create_task`; `taskNotFound` the fall-through of `update_task`.  An
`ioError` (an `OSError` from `save_json_file`/`load_json_file`) is not
caught in `main.py`, so FastAPI reports its default
`500 Internal Server Error`. -/
inductive ErrKind where
  | invalidTransition
  | unknownAction
  | featureNotFound
  | taskNotFound
  | ioError
deriving DecidableEq, Repr, Fintype

/-- The structured failures each error kind can surface as. -/
def failuresOf : ErrKind → List HTTPException
  | .invalidTransition => [⟨400, "Agent not running"⟩, ⟨400, "Agent not paused"⟩]
  | .unknownAction => [⟨400, "Invalid action"⟩]
  | .featureNotFound => [⟨404, "Feature not found"⟩]
  | .taskNotFound => [⟨404, "Task not found"⟩]
  | .ioError => [⟨500, "Internal Server Error"⟩]

/-! ## Supporting lemmas -/

/-- `auditAppend` always keeps exactly the last `min (length + 1) 100`
entries: one uniform `drop` characterisation of both branches. -/
theorem auditAppend_eq_drop (log : List AuditEntry) (e : AuditEntry) :
    auditAppend log e = (log ++ [e]).drop ((log ++ [e]).length - 100) := by
  simp only [auditAppend]
  split
  · rfl
  · next h =>
    rw [Nat.sub_eq_zero_of_le (by omega), List.drop_zero]

/-- Folding `auditAppend` from the empty log keeps exactly the last
100 entries (all of them while there are at most 100). -/
theorem foldl_auditAppend (entries : List AuditEntry) :
    List.foldl auditAppend [] entries = entries.drop (entries.length - 100) := by
  induction entries using List.reverseRecOn with
  | nil => rfl
  | append_singleton l e ih =>
    rw [List.foldl_append, List.foldl_cons, List.foldl_nil, ih, auditAppend_eq_drop]
    rcases Nat.le_total l.length 100 with h | h
    · rw [Nat.sub_eq_zero_of_le h, List.drop_zero]
    · have hx : (l.drop (l.length - 100)).length = 100 := by
        rw [List.length_drop]; omega
      have h1 : (l.drop (l.length - 100) ++ [e]).length - 100 = 1 := by
        simp [hx]
      have h2 : (l ++ [e]).length - 100 = l.length - 99 := by
        simp
      rw [h1, h2, List.drop_append_of_le_length (by omega),
        List.drop_append_of_le_length (by omega), List.drop_drop]
      have h3 : l.length - 100 + 1 = l.length - 99 := by omega
      rw [h3]

/-! ## Claim C4 — audit log capacity and FIFO eviction -/

/-- C4: starting from the empty audit log, any sequence of
`add_audit_log` appends leaves at most 100 entries, and once more than
100 entries have been appended the log is exactly the most recent 100
in their original append order (FIFO eviction of the oldest). -/
theorem audit_capacity_fifo (entries : List AuditEntry) :
    (List.foldl auditAppend [] entries).length ≤ 100 ∧
    (100 < entries.length →
      List.foldl auditAppend [] entries = entries.drop (entries.length - 100)) := by
  refine ⟨?_, fun _ => foldl_auditAppend entries⟩
  rw [foldl_auditAppend, List.length_drop]
  omega

/-- Witness for C4 at a concrete run of 101 appends. -/
theorem audit_capacity_fifo_witness :
    (List.foldl auditAppend [] (List.replicate 101 (⟨"t", "a", []⟩ : AuditEntry))).length ≤ 100 ∧
    List.foldl auditAppend [] (List.replicate 101 (⟨"t", "a", []⟩ : AuditEntry)) =
      (List.replicate 101 (⟨"t", "a", []⟩ : AuditEntry)).drop
        ((List.replicate 101 (⟨"t", "a", []⟩ : AuditEntry)).length - 100) :=
  ⟨(audit_capacity_fifo _).1, (audit_capacity_fifo _).2 (by simp)⟩

/-! ## Claim C2 — the `stop` action -/

/-- C2 as frozen is false on the code: `control_agent`'s `stop` branch
assigns `current_role = None` and `current_feature = None` but never
touches `started_at`.  Concretely, stopping from a running state that
started at `"t0"` leaves `started_at = "t0"` instead of clearing it. -/
theorem stop_keeps_started_at_counterexample :
    (controlAgent
      { status := "running", current_role := some "coder",
        current_feature := some "F1", started_at := some "t0",
        logs := [], audit_log := [] }
      ⟨"stop", none, none⟩ "t1").1.started_at = some "t0" ∧
    some "t0" ≠ (none : Option String) := by
  decide

/-- C2 amended: from every state, `stop` succeeds, sets status `idle`,
clears `currentRole` and `currentFeature`, appends an `agent_stopped`
audit entry — but leaves `startedAt` unchanged. -/
theorem control_stop_spec (s : AgentState) (r f : Option String) (now : String) :
    controlAgent s ⟨"stop", r, f⟩ now =
      ({ s with status := "idle", current_role := none, current_feature := none,
                audit_log := auditAppend s.audit_log ⟨now, "agent_stopped", []⟩ },
       .ok "idle") := by
  rfl

/-! ## Claim C3 — illegal `pause`/`resume` are rejected without mutation -/

/-- C3: `pause` from any state whose status is not `running`, and
`resume` from any state whose status is not `paused`, fail with the
InvalidTransition failure of `control_agent` (HTTP 400), and the agent
state — every field, audit log included — comes back unchanged. -/
theorem pause_resume_guard (s : AgentState) (r f : Option String) (now : String) :
    (s.status ≠ "running" →
      controlAgent s ⟨"pause", r, f⟩ now = (s, .error ⟨400, "Agent not running"⟩) ∧
      (⟨400, "Agent not running"⟩ : HTTPException) ∈ failuresOf .invalidTransition) ∧
    (s.status ≠ "paused" →
      controlAgent s ⟨"resume", r, f⟩ now = (s, .error ⟨400, "Agent not paused"⟩) ∧
      (⟨400, "Agent not paused"⟩ : HTTPException) ∈ failuresOf .invalidTransition) := by
  constructor
  · intro h
    refine ⟨?_, by simp [failuresOf]⟩
    simp [controlAgent, h]
  · intro h
    refine ⟨?_, by simp [failuresOf]⟩
    simp [controlAgent, h]

/-- Witness for C3: `pause` in the initial `idle` state and `resume` in
a `running` state are both rejected with the state unchanged. -/
theorem pause_resume_guard_witness :
    controlAgent initialAgentState ⟨"pause", none, none⟩ "t0" =
      (initialAgentState, .error ⟨400, "Agent not running"⟩) ∧
    controlAgent { initialAgentState with status := "running" } ⟨"resume", none, none⟩ "t0" =
      ({ initialAgentState with status := "running" },
       .error ⟨400, "Agent not paused"⟩) :=
  ⟨((pause_resume_guard initialAgentState none none "t0").1 (by decide)).1,
   ((pause_resume_guard { initialAgentState with status := "running" } none none "t0").2
      (by decide)).1⟩

/-! ## Claim C5 — createTask validation and success path -/

/-- C5: `create_task` with a `feature_id` absent from the catalog ids
(read fresh at call time) fails with the FeatureNotFound failure
(HTTP 404) and the world — the persisted documents in particular —
comes back unchanged; with a present `feature_id` it appends a task
with status `pending` and `created_at = now` to the document's queue,
persists the whole document, audits `task_created`, and returns the
created task. -/
theorem create_task_spec (w : World) (req : TaskCreate) (now : String) :
    (some req.feature_id ∉ featureIds (loadFeatureCatalog w.store) →
      createTask w req now = (w, .error ⟨404, "Feature not found"⟩) ∧
      (⟨404, "Feature not found"⟩ : HTTPException) ∈ failuresOf .featureNotFound) ∧
    (some req.feature_id ∈ featureIds (loadFeatureCatalog w.store) →
      createTask w req now =
        (⟨addAuditLog w.agent "task_created" [("feature_id", some req.feature_id)] now,
          { w.store with taskQueue := some ⟨some ((loadTaskQueue w.store).queue.getD [] ++
              [{ feature_id := req.feature_id, status := "pending", created_at := now,
                 updated_at := none, priority := req.priority }])⟩ }⟩,
         .ok ("created",
           { feature_id := req.feature_id, status := "pending", created_at := now,
             updated_at := none, priority := req.priority }))) := by
  constructor
  · intro h
    refine ⟨?_, by simp [failuresOf]⟩
    simp [createTask, h]
  · intro h
    simp [createTask, h]

/-- Witness for C5: with a catalog containing only `F1` and an empty
queue document, `createTask "F9"` fails leaving the world unchanged and
`createTask "F1"` appends the pending task. -/
theorem create_task_spec_witness :
    createTask
        ⟨initialAgentState, ⟨none, some ⟨some [⟨some "F1"⟩]⟩⟩⟩
        ⟨"F9", none, some "normal"⟩ "t0" =
      (⟨initialAgentState, ⟨none, some ⟨some [⟨some "F1"⟩]⟩⟩⟩,
       .error ⟨404, "Feature not found"⟩) ∧
    createTask
        ⟨initialAgentState, ⟨none, some ⟨some [⟨some "F1"⟩]⟩⟩⟩
        ⟨"F1", none, some "normal"⟩ "t0" =
      (⟨addAuditLog initialAgentState "task_created" [("feature_id", some "F1")] "t0",
        ⟨some ⟨some [{ feature_id := "F1", status := "pending", created_at := "t0",
                       updated_at := none, priority := some "normal" }]⟩,
         some ⟨some [⟨some "F1"⟩]⟩⟩⟩,
       .ok ("created",
         { feature_id := "F1", status := "pending", created_at := "t0",
           updated_at := none, priority := some "normal" })) :=
  ⟨((create_task_spec ⟨initialAgentState, ⟨none, some ⟨some [⟨some "F1"⟩]⟩⟩⟩
      ⟨"F9", none, some "normal"⟩ "t0").1 (by decide)).1,
   (create_task_spec ⟨initialAgentState, ⟨none, some ⟨some [⟨some "F1"⟩]⟩⟩⟩
      ⟨"F1", none, some "normal"⟩ "t0").2 (by decide)⟩

/-! ## Claim C9 — the created task's fields; description is discarded -/

/-- C9: `create_task` never reads `task.description`: the whole handler
result is unchanged if the request's description is replaced by `None`.
Moreover every task the handler returns is exactly the dict
`{feature_id, status := "pending", created_at := now, priority}` — in
the model, the `Task` with `updated_at = none` (no `updated_at` key)
and no description field at all. -/
theorem create_task_exact_fields (w : World) (req : TaskCreate) (now : String) :
    createTask w req now =
      createTask w { feature_id := req.feature_id, description := none,
                     priority := req.priority } now ∧
    (∀ resp t, (createTask w req now).2 = .ok (resp, t) →
      t = { feature_id := req.feature_id, status := "pending", created_at := now,
            updated_at := none, priority := req.priority }) := by
  constructor
  · rfl
  · intro resp t h
    by_cases hc : some req.feature_id ∈ featureIds (loadFeatureCatalog w.store)
    · simp [createTask, hc] at h
      exact h.2.symm
    · simp [createTask, hc] at h

/-- Witness for C9: a request carrying a description yields the task
with exactly the four fields and priority from the request. -/
theorem create_task_exact_fields_witness :
    ({ feature_id := "F1", status := "pending", created_at := "t0",
       updated_at := none, priority := some "high" } : Task) =
      { feature_id := "F1", status := "pending", created_at := "t0",
        updated_at := none, priority := some "high" } :=
  (create_task_exact_fields ⟨initialAgentState, ⟨none, some ⟨some [⟨some "F1"⟩]⟩⟩⟩
      ⟨"F1", some "a description the handler drops", some "high"⟩ "t0").2
    "created"
    { feature_id := "F1", status := "pending", created_at := "t0",
      updated_at := none, priority := some "high" }
    (by rfl)

/-! ## Claim C10 — absent task-queue file -/

/-- C10: when the task-queue file is absent, `load_json_file` yields the
empty document (no error, no `queue` key), and a subsequent
`create_task` with a catalogued `feature_id` succeeds: it initialises
the `queue` field and persists a document whose queue is exactly the
one new pending task. -/
theorem create_task_missing_file (ag : AgentState) (fc : Option FeatureCatalog)
    (req : TaskCreate) (now : String) :
    loadTaskQueue ⟨none, fc⟩ = ⟨none⟩ ∧
    (some req.feature_id ∈ featureIds (loadFeatureCatalog ⟨none, fc⟩) →
      createTask ⟨ag, ⟨none, fc⟩⟩ req now =
        (⟨addAuditLog ag "task_created" [("feature_id", some req.feature_id)] now,
          ⟨some ⟨some [{ feature_id := req.feature_id, status := "pending",
                         created_at := now, updated_at := none,
                         priority := req.priority }]⟩, fc⟩⟩,
         .ok ("created", { feature_id := req.feature_id, status := "pending",
                           created_at := now, updated_at := none,
                           priority := req.priority }))) := by
  refine ⟨rfl, fun h => ?_⟩
  simp [createTask, h, loadTaskQueue]

/-- Witness for C10 with a concrete one-feature catalog. -/
theorem create_task_missing_file_witness :
    createTask ⟨initialAgentState, ⟨none, some ⟨some [⟨some "F1"⟩]⟩⟩⟩
        ⟨"F1", none, some "normal"⟩ "t0" =
      (⟨addAuditLog initialAgentState "task_created" [("feature_id", some "F1")] "t0",
        ⟨some ⟨some [{ feature_id := "F1", status := "pending", created_at := "t0",
                       updated_at := none, priority := some "normal" }]⟩,
         some ⟨some [⟨some "F1"⟩]⟩⟩⟩,
       .ok ("created", { feature_id := "F1", status := "pending", created_at := "t0",
                         updated_at := none, priority := some "normal" })) :=
  (create_task_missing_file initialAgentState (some ⟨some [⟨some "F1"⟩]⟩)
      ⟨"F1", none, some "normal"⟩ "t0").2 (by decide)

/-- If no task in the list matches, the `update_task` loop falls
through. -/
theorem updateFirst_eq_none (fid ns now : String) (q : List Task)
    (h : ∀ t ∈ q, t.feature_id ≠ fid) :
    updateFirst fid ns now q = none := by
  induction q with
  | nil => rfl
  | cons t rest ih =>
    rw [updateFirst, if_neg (by simpa using h t (by simp)),
      ih (fun t' ht' => h t' (by simp [ht']))]

/-- The `update_task` loop rewrites exactly the first matching task,
leaving the prefix of non-matching tasks and the whole suffix alone. -/
theorem updateFirst_first_match (fid ns now : String) (pre : List Task)
    (t : Task) (suf : List Task)
    (hpre : ∀ t' ∈ pre, t'.feature_id ≠ fid) (ht : t.feature_id = fid) :
    updateFirst fid ns now (pre ++ t :: suf) =
      some (pre ++ { t with status := ns, updated_at := some now } :: suf,
            { t with status := ns, updated_at := some now }, t.status) := by
  induction pre with
  | nil => simp [updateFirst, ht]
  | cons p ps ih =>
    rw [List.cons_append, updateFirst, if_neg (by simpa using hpre p (by simp)),
      ih (fun t' h' => hpre t' (by simp [h']))]
    rfl

/-! ## Claim C6 — updateTask -/

/-- C6: when no task in the queue document matches the given
`feature_id`, `update_task` fails with the TaskNotFound failure
(HTTP 404) and the whole world — the persisted document in particular —
comes back unchanged; when the queue splits as
`pre ++ t :: suf` with no match in `pre` and `t` matching, the handler
rewrites exactly `t`'s `status` and `updated_at`, persists the
document, audits `task_updated`, and returns the updated task. -/
theorem update_task_spec (w : World) (fid : String) (upd : TaskUpdate) (now : String) :
    ((∀ t ∈ (loadTaskQueue w.store).queue.getD [], t.feature_id ≠ fid) →
      updateTask w fid upd now = (w, .error ⟨404, "Task not found"⟩) ∧
      (⟨404, "Task not found"⟩ : HTTPException) ∈ failuresOf .taskNotFound) ∧
    (∀ pre t suf, (loadTaskQueue w.store).queue.getD [] = pre ++ t :: suf →
      (∀ t' ∈ pre, t'.feature_id ≠ fid) → t.feature_id = fid →
      updateTask w fid upd now =
        (⟨addAuditLog w.agent "task_updated"
            [("feature_id", some fid), ("old_status", some t.status),
             ("new_status", some upd.status)] now,
          { w.store with taskQueue := some ⟨some
              (pre ++ { t with status := upd.status, updated_at := some now } :: suf)⟩ }⟩,
         .ok ("updated", { t with status := upd.status, updated_at := some now }))) := by
  constructor
  · intro h
    refine ⟨?_, by simp [failuresOf]⟩
    simp only [updateTask]
    rw [updateFirst_eq_none _ _ _ _ h]
  · intro pre t suf hq hpre ht
    simp only [updateTask]
    rw [hq, updateFirst_first_match _ _ _ pre t suf hpre ht]

/-- Witness for C6: updating `F9` in a one-task queue holding `F1`
fails with the document untouched; updating `F1` rewrites that task. -/
theorem update_task_spec_witness :
    updateTask
        ⟨initialAgentState,
         ⟨some ⟨some [{ feature_id := "F1", status := "pending", created_at := "t0",
                        updated_at := none, priority := some "normal" }]⟩, none⟩⟩
        "F9" ⟨"done"⟩ "t1" =
      (⟨initialAgentState,
        ⟨some ⟨some [{ feature_id := "F1", status := "pending", created_at := "t0",
                       updated_at := none, priority := some "normal" }]⟩, none⟩⟩,
       .error ⟨404, "Task not found"⟩) ∧
    updateTask
        ⟨initialAgentState,
         ⟨some ⟨some [{ feature_id := "F1", status := "pending", created_at := "t0",
                        updated_at := none, priority := some "normal" }]⟩, none⟩⟩
        "F1" ⟨"done"⟩ "t1" =
      (⟨addAuditLog initialAgentState "task_updated"
          [("feature_id", some "F1"), ("old_status", some "pending"),
           ("new_status", some "done")] "t1",
        ⟨some ⟨some [{ feature_id := "F1", status := "done", created_at := "t0",
                       updated_at := some "t1", priority := some "normal" }]⟩, none⟩⟩,
       .ok ("updated", { feature_id := "F1", status := "done", created_at := "t0",
                         updated_at := some "t1", priority := some "normal" })) :=
  ⟨((update_task_spec
      ⟨initialAgentState,
       ⟨some ⟨some [{ feature_id := "F1", status := "pending", created_at := "t0",
                      updated_at := none, priority := some "normal" }]⟩, none⟩⟩
      "F9" ⟨"done"⟩ "t1").1 (by decide)).1,
   (update_task_spec
      ⟨initialAgentState,
       ⟨some ⟨some [{ feature_id := "F1", status := "pending", created_at := "t0",
                      updated_at := none, priority := some "normal" }]⟩, none⟩⟩
      "F1" ⟨"done"⟩ "t1").2 []
     { feature_id := "F1", status := "pending", created_at := "t0",
       updated_at := none, priority := some "normal" } []
     (by rfl) (by decide) (by rfl)⟩

/-! ## Claim C7 — the five error kinds are distinguishable -/

/-- C7: any two failures of different kinds differ as structured
`(status_code, detail)` responses, and the failures the three handlers
actually produce are exactly the ones tabulated in `failuresOf`:
`control_agent` only raises InvalidTransition or UnknownAction
failures, `create_task` only FeatureNotFound, `update_task` only
TaskNotFound. -/
theorem error_statuses_distinct :
    (∀ k1 k2 : ErrKind, k1 ≠ k2 →
      ∀ e1 ∈ failuresOf k1, ∀ e2 ∈ failuresOf k2, e1 ≠ e2) ∧
    (∀ s c now e, (controlAgent s c now).2 = .error e →
      e ∈ failuresOf .invalidTransition ∨ e ∈ failuresOf .unknownAction) ∧
    (∀ w req now e, (createTask w req now).2 = .error e →
      e ∈ failuresOf .featureNotFound) ∧
    (∀ w fid upd now e, (updateTask w fid upd now).2 = .error e →
      e ∈ failuresOf .taskNotFound) := by
  refine ⟨by decide, ?_, ?_, ?_⟩
  · intro s c now e h
    simp only [controlAgent] at h
    repeat' split at h
    all_goals simp_all [failuresOf]
  · intro w req now e h
    simp only [createTask] at h
    split at h
    all_goals simp_all [failuresOf]
  · intro w fid upd now e h
    simp only [updateTask] at h
    split at h
    all_goals simp_all [failuresOf]

/-- Witness for C7: FeatureNotFound and TaskNotFound failures differ,
and `create_task` against an absent catalog produces exactly the
FeatureNotFound failure. -/
theorem error_statuses_distinct_witness :
    (⟨404, "Feature not found"⟩ : HTTPException) ≠ ⟨404, "Task not found"⟩ ∧
    (⟨404, "Feature not found"⟩ : HTTPException) ∈ failuresOf .featureNotFound :=
  ⟨error_statuses_distinct.1 .featureNotFound .taskNotFound (by decide)
      ⟨404, "Feature not found"⟩ (by decide) ⟨404, "Task not found"⟩ (by decide),
   error_statuses_distinct.2.2.1 ⟨initialAgentState, ⟨none, none⟩⟩
      ⟨"F9", none, none⟩ "t0" ⟨404, "Feature not found"⟩ (by rfl)⟩

/-! ## Claim C1 — log-stream delivery -/

/-- Invariant preservation for one subscriber event: the cursor never
passes the buffer length and the emitted frames are exactly the framed
prefix of the buffer up to the cursor. -/
theorem streamStep_inv (s : StreamState) (ev : StreamEvent)
    (h1 : s.cursor ≤ s.buffer.length)
    (h2 : s.emitted = (s.buffer.take s.cursor).map frame) :
    (streamStep s ev).cursor ≤ (streamStep s ev).buffer.length ∧
    (streamStep s ev).emitted =
      ((streamStep s ev).buffer.take (streamStep s ev).cursor).map frame := by
  cases ev with
  | publish l =>
    refine ⟨?_, ?_⟩
    · simp only [streamStep, List.length_append]
      omega
    · simp only [streamStep]
      rw [h2, List.take_append_of_le_length h1]
  | poll =>
    by_cases hb : s.buffer.length > s.cursor
    · simp only [streamStep, if_pos hb]
      refine ⟨Nat.le_refl _, ?_⟩
      rw [h2, ← List.map_append, List.take_append_drop, List.take_length]
    · simp only [streamStep, if_neg hb]
      exact ⟨h1, h2⟩

/-- The invariant carried through a whole event sequence. -/
theorem streamRun_inv (evs : List StreamEvent) (s : StreamState)
    (h1 : s.cursor ≤ s.buffer.length)
    (h2 : s.emitted = (s.buffer.take s.cursor).map frame) :
    (streamRun s evs).cursor ≤ (streamRun s evs).buffer.length ∧
    (streamRun s evs).emitted =
      ((streamRun s evs).buffer.take (streamRun s evs).cursor).map frame := by
  induction evs generalizing s with
  | nil => exact ⟨h1, h2⟩
  | cons ev rest ih =>
    have hstep := streamStep_inv s ev h1 h2
    exact ih (streamStep s ev) hstep.1 hstep.2

/-- C1 as frozen is false on the code: the cursor of a new subscriber
session is `last_idx = 0`, not the current buffer length, so a
subscriber connecting after `"boot"` was published receives that
backlog line on its first wakeup. -/
theorem stream_backlog_counterexample :
    (streamRun (streamConnect ["boot"]) [.poll]).emitted = [frame "boot"] ∧
    streamInit ≠ (["boot"] : List String).length := by
  exact ⟨rfl, by decide⟩

/-- C1 amended: every subscriber session starts at cursor 0, so a
subscriber connecting after N lines receives the backlog as well; and
every subscriber — the one connected from the start in particular —
emits, across any interleaving of publishes and loop wakeups, exactly
the framed prefix of the shared buffer up to its cursor, in publish
order with no duplicates and no gaps; one further wakeup delivers the
whole buffer. -/
theorem stream_delivery_spec (buf : List String) (evs : List StreamEvent) :
    (streamRun (streamConnect buf) evs).cursor ≤
      (streamRun (streamConnect buf) evs).buffer.length ∧
    (streamRun (streamConnect buf) evs).emitted =
      ((streamRun (streamConnect buf) evs).buffer.take
        (streamRun (streamConnect buf) evs).cursor).map frame ∧
    (streamRun (streamConnect buf) (evs ++ [.poll])).emitted =
      (streamRun (streamConnect buf) evs).buffer.map frame := by
  have hinv := streamRun_inv evs (streamConnect buf)
    (by simp [streamConnect, streamInit]) (by simp [streamConnect, streamInit])
  refine ⟨hinv.1, hinv.2, ?_⟩
  have hpoll : streamRun (streamConnect buf) (evs ++ [.poll]) =
      streamStep (streamRun (streamConnect buf) evs) .poll := by
    simp [streamRun, List.foldl_append]
  rw [hpoll]
  set t := streamRun (streamConnect buf) evs with ht
  by_cases hb : t.buffer.length > t.cursor
  · simp only [streamStep, if_pos hb]
    rw [hinv.2, ← List.map_append, List.take_append_drop]
  · simp only [streamStep, if_neg hb]
    rw [hinv.2]
    have hc : t.cursor = t.buffer.length := by
      have := hinv.1
      omega
    rw [hc, List.take_length]

end JobScanner
